import Mathlib

/-!
Verification of the barcode-scanner repository.

Part 1: the mock product backend, a shallow embedding of
`app/routes/server/products.$barcode.tsx` (loader and action handlers).
JavaScript numbers are modelled as rationals, JSON values that can reach the
handlers are modelled by `JsVal`, and React-Router `Response.json` replies by
plain result structures carrying the HTTP status and the JSON body fields the
claims observe.  The mutable module-level `products` record is modelled by an
explicit store (a function from barcode to product) threaded through `action`.
-/

/-- A product record, from the `Product` interface of `products.$barcode.tsx`. -/
structure Product where
  id : String
  name : String
  price : ℚ
  category : String
  stock : ℚ
  description : String
  manufacturer : String
deriving DecidableEq

/-- The in-memory product database keyed by barcode. -/
def ProductStore := String → Option Product

/-- Entry `'123456789'` of the `products` literal. -/
def productA : Product :=
  ⟨"123456789", "테스트 상품 A", 15000, "전자제품", 50, "바코드 테스트용 상품입니다.", "테스트 회사"⟩

/-- Entry `'987654321'` of the `products` literal. -/
def productB : Product :=
  ⟨"987654321", "테스트 상품 B", 8500, "생활용품", 30, "또 다른 테스트 상품입니다.", "샘플 제조사"⟩

/-- Entry `CODE39TEST` of the `products` literal. -/
def productC : Product :=
  ⟨"CODE39TEST", "CODE39 샘플 제품", 25000, "샘플", 100, "CODE39 바코드 테스트 전용 상품", "바코드 테스트"⟩

/-- The initial `products` record of `products.$barcode.tsx` (three test rows). -/
def products0 : ProductStore := fun b =>
  if b = "123456789" then some productA
  else if b = "987654321" then some productB
  else if b = "CODE39TEST" then some productC
  else none

/-- A JSON value as far as the action handler inspects one: a string, a
number, or anything else (`typeof` checks distinguish exactly these). -/
inductive JsVal where
  | str (s : String)
  | num (q : ℚ)
  | other
deriving DecidableEq

/-- JavaScript `Number(v)` as used on `body.price`: numbers pass through,
plain integer strings parse, everything else (including non-numeric strings
and non-string non-number values) is NaN, modelled as `none`. -/
def toNumber : JsVal → Option ℚ
  | .num q => some q
  | .str s => (s.toInt?).map (fun n => (n : ℚ))
  | .other => none

/-- The parsed JSON request body of a `POST /server/products/:barcode`.
`none` fields model `undefined` (absent) properties. -/
structure Body where
  action : String
  quantity : Option JsVal := none
  name : Option JsVal := none
  price : Option JsVal := none
  category : Option JsVal := none
  description : Option JsVal := none
  manufacturer : Option JsVal := none
deriving DecidableEq

/-- Formatted price string in responses; `toLocaleString()` is modelled
without thousands separators (no claim observes the separator). -/
def formatPrice (p : ℚ) : String := toString p ++ "원"

/-- The JSON data object returned by the loader on success: the product
spread plus `scannedAt` (the current time, passed in as `now`) and
`formattedPrice`. -/
structure ProductData where
  product : Product
  scannedAt : String
  formattedPrice : String
deriving DecidableEq

/-- Loader response: HTTP status plus the body fields the claims observe
(`success`, `error`, `data`).  The 404 body's `availableBarcodes` listing is
not modelled (no claim mentions it). -/
structure LoaderResp where
  status : Nat
  success : Bool
  error : Option String
  data : Option ProductData
deriving DecidableEq

/-- JavaScript `s.trim()`: drop whitespace from both ends.  (Defined by
structural recursion so that concrete witnesses evaluate; `String.trim`
itself does not reduce in the kernel.) -/
def strTrim (s : String) : String :=
  ⟨((s.data.dropWhile Char.isWhitespace).reverse.dropWhile Char.isWhitespace).reverse⟩

/-- JavaScript `s.toLowerCase()` on the ASCII labels this repository
compares (character-wise lowering). -/
def strLower (s : String) : String :=
  ⟨s.data.map Char.toLower⟩

/-- The `GET /server/products/:barcode` loader of `products.$barcode.tsx`.
The route parameter is always a string; `!barcode || barcode.trim() === ''`
is equivalent to the trimmed barcode being empty. -/
def loader (store : ProductStore) (barcode : String) (now : String) : LoaderResp :=
  if strTrim barcode = "" then
    ⟨400, false, some "바코드가 제공되지 않았습니다.", none⟩
  else
    match store barcode with
    | none => ⟨404, false, some "해당 바코드의 제품을 찾을 수 없습니다.", none⟩
    | some p => ⟨200, true, none, some ⟨p, now, formatPrice p.price⟩⟩

/-- Action response: HTTP status plus `success`, `error`, `message`. -/
structure ActionResp where
  status : Nat
  success : Bool
  error : Option String
  message : Option String
deriving DecidableEq

/-- Point update of the store at one barcode (the in-place mutation of the
`products[barcode]` object). -/
def updateStore (store : ProductStore) (b : String) (p : Product) : ProductStore :=
  fun k => if k = b then some p else store k

/-- One step of the `update_info` field loop: the body of the
`allowedFields.forEach` callback for a single field name, returning the
possibly-updated product and the `updated` flag. -/
def applyField (p : Product) (upd : Bool) (field : String) (v? : Option JsVal) :
    Product × Bool :=
  match v? with
  | none => (p, upd)
  | some v =>
    if field = "price" then
      match toNumber v with
      | some q => if 0 ≤ q then ({ p with price := q }, true) else (p, upd)
      | none => (p, upd)
    else
      match v with
      | .str s => if strTrim s ≠ "" then (setStrField p field (strTrim s), true) else (p, upd)
      | _ => (p, upd)
where
  /-- Assignment `product[field] = trimmed` for the string fields. -/
  setStrField (p : Product) (field : String) (s : String) : Product :=
    if field = "name" then { p with name := s }
    else if field = "category" then { p with category := s }
    else if field = "description" then { p with description := s }
    else if field = "manufacturer" then { p with manufacturer := s }
    else p

/-- The `update_info` branch: folds `applyField` over the five allowed
fields in source order, starting with `updated = false`. -/
def updateInfo (p : Product) (b : Body) : Product × Bool :=
  let s1 := applyField p false "name" b.name
  let s2 := applyField s1.1 s1.2 "price" b.price
  let s3 := applyField s2.1 s2.2 "category" b.category
  let s4 := applyField s3.1 s3.2 "description" b.description
  applyField s4.1 s4.2 "manufacturer" b.manufacturer

/-- The unsupported-action 400 response (the shared fall-through at the end
of the handler). -/
def unsupportedResp : ActionResp :=
  ⟨400, false, some "지원하지 않는 액션입니다.", none⟩

/-- The `POST /server/products/:barcode` handler, the `action` of
`products.$barcode.tsx`, returning the response and the store after the
request.  The source's sequential `if` blocks are translated as a chain; a
`decrease_stock`/`increase_stock` whose `quantity` is not a number skips its
block and reaches the final unsupported-action 400, exactly as in the
source.  The `catch`-500 branch is unreachable here because only
`request.json()` can throw and this function receives an already-parsed
body. -/
def productAction (store : ProductStore) (barcode : String) (body : Body) :
    ActionResp × ProductStore :=
  match store barcode with
  | none => (⟨404, false, some "제품을 찾을 수 없습니다.", none⟩, store)
  | some product =>
    if body.action = "decrease_stock" then
      match body.quantity with
      | some (.num q) =>
        if q ≤ product.stock then
          (⟨200, true, none, some ("재고가 " ++ toString q ++ "개 차감되었습니다.")⟩,
           updateStore store barcode { product with stock := product.stock - q })
        else
          (⟨400, false, some "재고가 부족합니다.", none⟩, store)
      | _ => (unsupportedResp, store)
    else if body.action = "increase_stock" then
      match body.quantity with
      | some (.num q) =>
        (⟨200, true, none, some ("재고가 " ++ toString q ++ "개 추가되었습니다.")⟩,
         updateStore store barcode { product with stock := product.stock + q })
      | _ => (unsupportedResp, store)
    else if body.action = "update_info" then
      let r := updateInfo product body
      if r.2 then
        (⟨200, true, none, some "제품 정보가 업데이트되었습니다."⟩,
         updateStore store barcode r.1)
      else (unsupportedResp, store)
    else (unsupportedResp, store)

/-- A sequence of POST requests applied in order to the store. -/
def applyAll (reqs : List (String × Body)) (store : ProductStore) : ProductStore :=
  reqs.foldl (fun s r => (productAction s r.1 r.2).2) store

/-- The quantity of a request body is a nonnegative number whenever it is a
number at all. -/
def qtyNonneg (b : Body) : Bool :=
  match b.quantity with
  | some (.num q) => decide (0 ≤ q)
  | _ => true

/-!
Part 2: the scanner lifecycle coordinator, a shallow embedding of the main
variant of `app/routes/home.tsx` (the component with the five-state
`ScannerState`).  React `useState` setters are modelled as immediate field
updates, with one deliberate exception: the `startScanning` that a
`setTimeout` schedules is the one the scheduling render created, and it
closes over that render's `selectedCamera` — a later `setSelectedCamera`
does not change what the deferred closure reads.  The model therefore
records the captured camera (`restartCam`, `newScanCam`) at scheduling
time and the timer events start with it, not with the current selection.
The external decoder (Quagga2) is modelled per its contract: each
successful `Quagga.init` acquires a fresh camera stream and makes its
pipeline the one the singleton controls, without releasing a previously
acquired stream; `Quagga.stop` releases the stream of the pipeline the
singleton currently controls; detection/processed events are emitted only
by the currently running pipeline (`emits onDetected(DetectionResult) while
running`) and reach the component only while the corresponding
`onDetected`/`onProcessed` registration is in place (`offDetected()`
removes it).  Asynchronous `Quagga.init` callbacks and the component's two
`setTimeout` restarts are modelled as explicit events.
-/

/-- The `ScannerState` union type of `home.tsx`. -/
inductive ScState where
  | idle
  | starting
  | scanning
  | success
  | error
deriving DecidableEq

/-- Observable decoder-session operations, recorded so that ordering claims
can be stated: `stopSession s` is a `Quagga.stop()` that tears down the
live pipeline of session `s`; `startSession cam` is a `Quagga.init` issued
for camera `cam` (the acquisition request of a new session). -/
inductive Op where
  | stopSession (sid : Nat)
  | startSession (cam : String)
deriving DecidableEq

/-- The component state together with the modelled Quagga singleton.
`running` is the session id of the pipeline the singleton currently
controls; `pendings` are `Quagga.init` calls whose callback has not fired
yet (session id and the camera captured by the config); `acquisitions`
counts camera streams acquired and not released; `pendingRestart` and
`pendingNewScan` are the two `setTimeout(startScanning, …)` timers, and
`restartCam`/`newScanCam` are the `selectedCamera` values their scheduled
closures captured. -/
structure ScannerS where
  scannerState : ScState
  scannedCode : String
  errMsg : String
  scanCount : Nat
  quaggaLoaded : Bool
  selectedCamera : Option String
  running : Option Nat
  pendings : List (Nat × String)
  nextSid : Nat
  acquisitions : Nat
  detectedRegistered : Bool
  processedRegistered : Bool
  pendingRestart : Bool
  restartCam : Option String
  pendingNewScan : Bool
  newScanCam : Option String
  log : List Op
deriving DecidableEq

/-- Function `stopScanning` of `home.tsx`: guard on the loaded library, then
`Quagga.stop(); Quagga.offDetected(); Quagga.offProcessed();`, reset the
UI state to idle only from `scanning`/`starting`, and clear the frame
counter.  The `try`/`catch` means the function never throws, so it is a
total function here. -/
def stopScanning (st : ScannerS) : ScannerS :=
  if st.quaggaLoaded then
    { st with
      running := none,
      acquisitions :=
        match st.running with
        | some _ => st.acquisitions - 1
        | none => st.acquisitions,
      log :=
        match st.running with
        | some s => st.log ++ [Op.stopSession s]
        | none => st.log,
      detectedRegistered := false,
      processedRegistered := false,
      scannerState :=
        if st.scannerState = ScState.scanning ∨ st.scannerState = ScState.starting then
          ScState.idle
        else st.scannerState,
      scanCount := 0 }
  else st

/-- The body of `startScanning` of `home.tsx`, parametrised by the
`selectedCamera` value the invoked closure reads (a direct call reads the
current selection; a `setTimeout`-deferred call reads the value its render
captured): guard `!Quagga || !scannerRef.current || !selectedCamera` (the
ref is always attached here), set the starting UI state, clear
error/code/counter, issue `Quagga.init` (an in-flight callback with a
fresh session id and the closure's camera), and register the
`onDetected`/`onProcessed` handlers. -/
def startScanningCam (st : ScannerS) (cam? : Option String) : ScannerS :=
  match st.quaggaLoaded, cam? with
  | true, some cam =>
    { st with scannerState := ScState.starting, errMsg := "", scannedCode := "",
              scanCount := 0,
              pendings := st.pendings ++ [(st.nextSid, cam)],
              nextSid := st.nextSid + 1,
              log := st.log ++ [Op.startSession cam],
              detectedRegistered := true, processedRegistered := true }
  | _, _ => st

/-- Function `startScanning` of `home.tsx` invoked directly (fresh render):
its closure reads the current `selectedCamera`. -/
def startScanning (st : ScannerS) : ScannerS :=
  startScanningCam st st.selectedCamera

/-- The success branch of the `Quagga.init` callback: `Quagga.start()`
acquires the configured camera and makes the new pipeline current, then
`setScannerState('scanning')`.  It runs whenever the oldest in-flight init
resolves, regardless of what happened to the component meanwhile (the
source does not cancel in-flight inits). -/
def onInitOk (st : ScannerS) : ScannerS :=
  match st.pendings with
  | [] => st
  | (sid, _cam) :: rest =>
    { st with pendings := rest, running := some sid,
              acquisitions := st.acquisitions + 1,
              scannerState := ScState.scanning }

/-- The failure branch of the `Quagga.init` callback. -/
def onInitFail (st : ScannerS) (msg : String) : ScannerS :=
  match st.pendings with
  | [] => st
  | _ :: rest =>
    { st with pendings := rest, errMsg := "카메라를 시작할 수 없습니다: " ++ msg,
              scannerState := ScState.error }

/-- The detection-confidence filter: the `if (confidence < 70) return;`
guard of the `onDetected` handler, as a predicate. -/
def acceptDetection (confidence : Int) : Bool :=
  ! decide (confidence < 70)

/-- A detection event of session `sid`.  It reaches the handler only if
`sid` is the running pipeline and the handler is still registered; the
handler then applies the confidence filter, records the code, switches to
the success state and stops the scanner (no auto-restart). -/
def onDetected (st : ScannerS) (sid : Nat) (code : String) (conf : Int) : ScannerS :=
  if (st.running == some sid) && st.detectedRegistered then
    if acceptDetection conf then
      stopScanning { st with scannedCode := code, scannerState := ScState.success }
    else st
  else st

/-- A processed-frame event of session `sid` (the `onProcessed` counter). -/
def onProcessed (st : ScannerS) (sid : Nat) : ScannerS :=
  if (st.running == some sid) && st.processedRegistered then
    { st with scanCount := st.scanCount + 1 }
  else st

/-- Function `startNewScan` of `home.tsx`: clear the result, go idle, and schedule
`startScanning` on a 100 ms timer; the scheduled closure captures the
current render's `selectedCamera`. -/
def startNewScan (st : ScannerS) : ScannerS :=
  { st with scannedCode := "", scannerState := ScState.idle,
            pendingNewScan := true, newScanCam := st.selectedCamera }

/-- Function `handleCameraChange` of `home.tsx`: select the new camera; if currently
scanning, stop and schedule `startScanning` on a 500 ms timer.  The
scheduled closure is the `startScanning` of the render in which the change
event fired, so it captures that render's `selectedCamera` — still the
previous camera, recorded here in `restartCam`; `setSelectedCamera(id)`
only affects later renders. -/
def handleCameraChange (st : ScannerS) (id : String) : ScannerS :=
  if st.scannerState = ScState.scanning then
    { stopScanning { st with selectedCamera := some id } with
        pendingRestart := true, restartCam := st.selectedCamera }
  else { st with selectedCamera := some id }

/-- The events that drive the component: user interactions, the two timer
callbacks, the asynchronous `Quagga.init` outcomes, and the decoder's
detection/processed emissions (tagged with the emitting session). -/
inductive Ev where
  | startCall
  | stopCall
  | cameraChange (id : String)
  | newScanClick
  | newScanTimer
  | restartTimer
  | retryClick
  | clearClick
  | initOk
  | initFail (msg : String)
  | detected (sid : Nat) (code : String) (confidence : Int)
  | processed (sid : Nat)

/-- One step of the coordinator. -/
def step (st : ScannerS) : Ev → ScannerS
  | Ev.startCall => startScanning st
  | Ev.stopCall => stopScanning st
  | Ev.cameraChange id => handleCameraChange st id
  | Ev.newScanClick => startNewScan st
  | Ev.newScanTimer =>
    if st.pendingNewScan then
      startScanningCam { st with pendingNewScan := false } st.newScanCam
    else st
  | Ev.restartTimer =>
    if st.pendingRestart then
      startScanningCam { st with pendingRestart := false } st.restartCam
    else st
  | Ev.retryClick => { st with errMsg := "", scannerState := ScState.idle }
  | Ev.clearClick => { st with scannedCode := "", scannerState := ScState.idle }
  | Ev.initOk => onInitOk st
  | Ev.initFail msg => onInitFail st msg
  | Ev.detected sid code conf => onDetected st sid code conf
  | Ev.processed sid => onProcessed st sid

/-- Running a list of events. -/
def run (st : ScannerS) (evs : List Ev) : ScannerS :=
  evs.foldl step st

/-- The component right after the mount effect succeeded: library loaded,
cameras enumerated and a default camera selected, nothing running. -/
def readyState : ScannerS :=
  { scannerState := ScState.idle, scannedCode := "", errMsg := "", scanCount := 0,
    quaggaLoaded := true, selectedCamera := some "cam1",
    running := none, pendings := [], nextSid := 0, acquisitions := 0,
    detectedRegistered := false, processedRegistered := false,
    pendingRestart := false, restartCam := none, pendingNewScan := false,
    newScanCam := none, log := [] }

/-!
Part 3: default camera selection (`loadCameras`).  Two variants exist in the
repository: the main `home.tsx` variant matches "back", "rear" or
"environment" in the lowercased label and otherwise falls back to the first
device, while the `part_000` variant matches only "back".
-/

/-- An enumerated video-input device (`{deviceId, label}`; the `kind` field
is always `'videoinput'` after the filter and plays no further role). -/
structure CameraDevice where
  deviceId : String
  label : String
deriving DecidableEq

/-- Whether `needle` starts the list `hay`. -/
def listStartsWith : List Char → List Char → Bool
  | [], _ => true
  | _ :: _, [] => false
  | a :: as, b :: bs => a == b && listStartsWith as bs

/-- Whether `needle` occurs contiguously in `hay`. -/
def listHasSub (needle : List Char) : List Char → Bool
  | [] => needle.isEmpty
  | c :: rest => listStartsWith needle (c :: rest) || listHasSub needle rest

/-- JavaScript `s.includes(sub)`. -/
def strIncludes (s sub : String) : Bool :=
  listHasSub sub.toList s.toList

/-- The label test of the main `home.tsx` variant:
`label.toLowerCase().includes('back') || …('rear') || …('environment')`. -/
def labelPrefers (c : CameraDevice) : Bool :=
  strIncludes (strLower c.label) "back" || strIncludes (strLower c.label) "rear" ||
    strIncludes (strLower c.label) "environment"

/-- Default selection of the main `home.tsx` variant: the `find` over the
enumerated devices, then the first-device fallback guarded by
`videoDevices.length > 0`; with no device, no selection is made. -/
def selectDefaultHome (l : List CameraDevice) : Option String :=
  match l.find? labelPrefers with
  | some c => some c.deviceId
  | none =>
    match l with
    | [] => none
    | c :: _ => some c.deviceId

/-- Default selection of the `part_000` variant:
`videoDevices.find(c => c.label.toLowerCase().includes('back')) || videoDevices[0]`,
guarded by `videoDevices.length > 0`. -/
def selectDefaultPart000 (l : List CameraDevice) : Option String :=
  match l with
  | [] => none
  | c :: _ =>
    match l.find? (fun d => strIncludes (strLower d.label) "back") with
    | some b => some b.deviceId
    | none => some c.deviceId

/-- The selection policy in the claim's words: the first device whose label
contains "back", "rear" or "environment" as a case-insensitive substring,
otherwise the first entry of the list, and no selection on an empty list. -/
def selectDefaultSpec (l : List CameraDevice) : Option String :=
  match l.find? labelPrefers with
  | some c => some c.deviceId
  | none => l.head?.map (fun c => c.deviceId)

/-- The back-only policy the `part_000` variant actually implements: the
first device whose label contains "back" case-insensitively, otherwise the
first entry, and no selection on an empty list. -/
def selectBackOnlySpec (l : List CameraDevice) : Option String :=
  match l.find? (fun d => strIncludes (strLower d.label) "back") with
  | some c => some c.deviceId
  | none => l.head?.map (fun c => c.deviceId)

/-!
Part 4: session bookkeeping invariants.  Session ids are allocated from a
counter, so a session that was torn down can never become the running
pipeline again; this is what makes a late detection event of a stopped
session harmless.
-/

/-- Bookkeeping invariant of the modelled Quagga singleton: in-flight init
callbacks carry strictly increasing fresh session ids below the allocation
counter, the running pipeline's id is below the counter and below every
in-flight id, and any session activity implies the library is loaded. -/
def SessionsOk (st : ScannerS) : Prop :=
  (st.pendings.map Prod.fst).Pairwise (· < ·) ∧
  (∀ p ∈ st.pendings, p.1 < st.nextSid) ∧
  (∀ r, st.running = some r → r < st.nextSid ∧ ∀ p ∈ st.pendings, r < p.1) ∧
  ((st.running ≠ none ∨ st.pendings ≠ []) → st.quaggaLoaded = true)

/-- Session `s` is dead: it is not the running pipeline, no in-flight init
can resurrect it, and the allocator will never hand out its id again. -/
def SessionGone (s : Nat) (st : ScannerS) : Prop :=
  st.running ≠ some s ∧ (∀ p ∈ st.pendings, s < p.1) ∧ s < st.nextSid

theorem sessionsOk_ready : SessionsOk readyState := by
  refine ⟨?_, ?_, ?_, ?_⟩ <;> simp [readyState, SessionsOk]

theorem sessionsOk_startScanningCam (h : SessionsOk st) :
    SessionsOk (startScanningCam st cam?) := by
  obtain ⟨h1, h2, h3, h4⟩ := h
  unfold startScanningCam
  split
  case h_2 => exact ⟨h1, h2, h3, h4⟩
  case h_1 cam hq =>
    refine ⟨?_, ?_, ?_, ?_⟩
    · simp only [List.map_append, List.pairwise_append, List.map_cons, List.map_nil]
      refine ⟨h1, by simp, ?_⟩
      intro a ha b hb
      simp only [List.mem_singleton] at hb
      subst hb
      simp only [List.mem_map] at ha
      obtain ⟨p, hp, rfl⟩ := ha
      exact h2 p hp
    · intro p hp
      simp only [List.mem_append, List.mem_singleton] at hp
      rcases hp with hp | hp
      · exact Nat.lt_succ_of_lt (h2 p hp)
      · subst hp; exact Nat.lt_succ_self _
    · intro r hr
      simp only at hr
      obtain ⟨hr1, hr2⟩ := h3 r hr
      refine ⟨Nat.lt_succ_of_lt hr1, ?_⟩
      intro p hp
      simp only [List.mem_append, List.mem_singleton] at hp
      rcases hp with hp | hp
      · exact hr2 p hp
      · subst hp; exact hr1
    · intro _; exact hq

theorem sessionsOk_stopScanning (h : SessionsOk st) : SessionsOk (stopScanning st) := by
  obtain ⟨h1, h2, h3, h4⟩ := h
  unfold stopScanning
  split
  case isTrue hq => exact ⟨h1, h2, by simp, fun _ => hq⟩
  case isFalse => exact ⟨h1, h2, h3, h4⟩

theorem sessionsOk_onInitOk (h : SessionsOk st) : SessionsOk (onInitOk st) := by
  obtain ⟨h1, h2, h3, h4⟩ := h
  unfold onInitOk
  split
  case h_1 => exact ⟨h1, h2, h3, h4⟩
  case h_2 sid cam rest hp =>
    rw [hp] at h1 h2 h4
    simp only [List.map_cons, List.pairwise_cons] at h1
    refine ⟨h1.2, ?_, ?_, ?_⟩
    · intro p hmem; exact h2 p (List.mem_cons_of_mem _ hmem)
    · intro r hr
      simp only [Option.some.injEq] at hr
      subst hr
      refine ⟨h2 (sid, cam) (List.mem_cons_self _ _), ?_⟩
      intro p hmem
      exact h1.1 p.1 (List.mem_map_of_mem Prod.fst hmem)
    · intro _; exact h4 (Or.inr (by simp))

theorem sessionsOk_onInitFail (h : SessionsOk st) : SessionsOk (onInitFail st msg) := by
  obtain ⟨h1, h2, h3, h4⟩ := h
  unfold onInitFail
  split
  case h_1 => exact ⟨h1, h2, h3, h4⟩
  case h_2 hd rest hp =>
    rw [hp] at h1 h2 h3 h4
    simp only [List.map_cons, List.pairwise_cons] at h1
    refine ⟨h1.2, ?_, ?_, ?_⟩
    · intro p hmem; exact h2 p (List.mem_cons_of_mem _ hmem)
    · intro r hr
      obtain ⟨hr1, hr2⟩ := h3 r hr
      exact ⟨hr1, fun p hmem => hr2 p (List.mem_cons_of_mem _ hmem)⟩
    · intro _; exact h4 (Or.inr (by simp))

theorem sessionsOk_fields {st' st : ScannerS} (h : SessionsOk st)
    (e1 : st'.pendings = st.pendings) (e2 : st'.nextSid = st.nextSid)
    (e3 : st'.running = st.running) (e4 : st'.quaggaLoaded = st.quaggaLoaded) :
    SessionsOk st' := by
  obtain ⟨g1, g2, g3, g4⟩ := h
  refine ⟨?_, ?_, ?_, ?_⟩
  · rw [e1]; exact g1
  · rw [e1, e2]; exact g2
  · rw [e3, e2, e1]; exact g3
  · rw [e3, e1, e4]; exact g4

theorem sessionsOk_step (h : SessionsOk st) (e : Ev) : SessionsOk (step st e) := by
  cases e with
  | startCall => exact sessionsOk_startScanningCam h
  | stopCall => exact sessionsOk_stopScanning h
  | cameraChange id =>
    simp only [step]
    unfold handleCameraChange
    split
    · have hA : SessionsOk { st with selectedCamera := some id } :=
        sessionsOk_fields h rfl rfl rfl rfl
      have hB := sessionsOk_stopScanning hA
      exact sessionsOk_fields hB rfl rfl rfl rfl
    · exact sessionsOk_fields h rfl rfl rfl rfl
  | newScanClick =>
    simp only [step]
    exact sessionsOk_fields h rfl rfl rfl rfl
  | newScanTimer =>
    simp only [step]
    split
    · have hA : SessionsOk { st with pendingNewScan := false } :=
        sessionsOk_fields h rfl rfl rfl rfl
      exact sessionsOk_startScanningCam hA
    · exact h
  | restartTimer =>
    simp only [step]
    split
    · have hA : SessionsOk { st with pendingRestart := false } :=
        sessionsOk_fields h rfl rfl rfl rfl
      exact sessionsOk_startScanningCam hA
    · exact h
  | retryClick =>
    simp only [step]
    exact sessionsOk_fields h rfl rfl rfl rfl
  | clearClick =>
    simp only [step]
    exact sessionsOk_fields h rfl rfl rfl rfl
  | initOk => exact sessionsOk_onInitOk h
  | initFail msg => exact sessionsOk_onInitFail h
  | detected sid code conf =>
    simp only [step]
    unfold onDetected
    split
    · split
      · have hA : SessionsOk { st with scannedCode := code, scannerState := ScState.success } :=
          sessionsOk_fields h rfl rfl rfl rfl
        exact sessionsOk_stopScanning hA
      · exact h
    · exact h
  | processed sid =>
    simp only [step]
    unfold onProcessed
    split
    · exact sessionsOk_fields h rfl rfl rfl rfl
    · exact h

theorem sessionsOk_run (h : SessionsOk st) (evs : List Ev) : SessionsOk (run st evs) := by
  induction evs generalizing st with
  | nil => exact h
  | cons e t ih => exact ih (sessionsOk_step h e)

theorem sessionGone_fields {s : Nat} {st' st : ScannerS} (h : SessionGone s st)
    (e1 : st'.pendings = st.pendings) (e2 : st'.nextSid = st.nextSid)
    (e3 : st'.running = st.running) : SessionGone s st' := by
  obtain ⟨g1, g2, g3⟩ := h
  exact ⟨by rw [e3]; exact g1, by rw [e1]; exact g2, by rw [e2]; exact g3⟩

theorem sessionGone_startScanningCam (h : SessionGone s st) :
    SessionGone s (startScanningCam st cam?) := by
  obtain ⟨h1, h2, h3⟩ := h
  unfold startScanningCam
  split
  case h_2 => exact ⟨h1, h2, h3⟩
  case h_1 cam hq hc =>
    refine ⟨h1, ?_, Nat.lt_succ_of_lt h3⟩
    intro p hp
    simp only [List.mem_append, List.mem_singleton] at hp
    rcases hp with hp | hp
    · exact h2 p hp
    · subst hp; exact h3

theorem sessionGone_stopScanning (h : SessionGone s st) :
    SessionGone s (stopScanning st) := by
  obtain ⟨h1, h2, h3⟩ := h
  unfold stopScanning
  split
  · exact ⟨by simp, h2, h3⟩
  · exact ⟨h1, h2, h3⟩

theorem sessionGone_step (h : SessionGone s st) (e : Ev) : SessionGone s (step st e) := by
  obtain ⟨h1, h2, h3⟩ := h
  cases e with
  | startCall => exact sessionGone_startScanningCam ⟨h1, h2, h3⟩
  | stopCall => exact sessionGone_stopScanning ⟨h1, h2, h3⟩
  | cameraChange id =>
    simp only [step]
    unfold handleCameraChange
    split
    · have hA : SessionGone s { st with selectedCamera := some id } :=
        sessionGone_fields ⟨h1, h2, h3⟩ rfl rfl rfl
      have hB := sessionGone_stopScanning hA
      exact sessionGone_fields hB rfl rfl rfl
    · exact sessionGone_fields ⟨h1, h2, h3⟩ rfl rfl rfl
  | newScanClick =>
    simp only [step]
    exact sessionGone_fields ⟨h1, h2, h3⟩ rfl rfl rfl
  | newScanTimer =>
    simp only [step]
    split
    · have hA : SessionGone s { st with pendingNewScan := false } :=
        sessionGone_fields ⟨h1, h2, h3⟩ rfl rfl rfl
      exact sessionGone_startScanningCam hA
    · exact ⟨h1, h2, h3⟩
  | restartTimer =>
    simp only [step]
    split
    · have hA : SessionGone s { st with pendingRestart := false } :=
        sessionGone_fields ⟨h1, h2, h3⟩ rfl rfl rfl
      exact sessionGone_startScanningCam hA
    · exact ⟨h1, h2, h3⟩
  | retryClick =>
    simp only [step]
    exact sessionGone_fields ⟨h1, h2, h3⟩ rfl rfl rfl
  | clearClick =>
    simp only [step]
    exact sessionGone_fields ⟨h1, h2, h3⟩ rfl rfl rfl
  | initOk =>
    simp only [step]
    unfold onInitOk
    split
    case h_1 => exact ⟨h1, h2, h3⟩
    case h_2 sid cam rest hp =>
      rw [hp] at h2
      refine ⟨?_, ?_, h3⟩
      · have hlt := h2 (sid, cam) (List.mem_cons_self _ _)
        show (some sid : Option Nat) ≠ some s
        simp only [ne_eq, Option.some.injEq]
        omega
      · intro p hmem; exact h2 p (List.mem_cons_of_mem _ hmem)
  | initFail msg =>
    simp only [step]
    unfold onInitFail
    split
    case h_1 => exact ⟨h1, h2, h3⟩
    case h_2 hd rest hp =>
      rw [hp] at h2
      exact ⟨h1, fun p hmem => h2 p (List.mem_cons_of_mem _ hmem), h3⟩
  | detected sid code conf =>
    simp only [step]
    unfold onDetected
    split
    · split
      · have hA : SessionGone s { st with scannedCode := code, scannerState := ScState.success } :=
          sessionGone_fields ⟨h1, h2, h3⟩ rfl rfl rfl
        exact sessionGone_stopScanning hA
      · exact ⟨h1, h2, h3⟩
    · exact ⟨h1, h2, h3⟩
  | processed sid =>
    simp only [step]
    unfold onProcessed
    split
    · exact sessionGone_fields ⟨h1, h2, h3⟩ rfl rfl rfl
    · exact ⟨h1, h2, h3⟩

theorem sessionGone_run (h : SessionGone s st) (evs : List Ev) :
    SessionGone s (run st evs) := by
  induction evs generalizing st with
  | nil => exact h
  | cons e t ih => exact ih (sessionGone_step h e)

theorem sessionGone_of_stop (h : SessionsOk st) (hr : st.running = some s) :
    SessionGone s (stopScanning st) := by
  obtain ⟨h1, h2, h3, h4⟩ := h
  obtain ⟨hlt, hab⟩ := h3 s hr
  have hq : st.quaggaLoaded = true := h4 (Or.inl (by simp [hr]))
  unfold stopScanning
  rw [hq]
  exact ⟨by simp, hab, hlt⟩

theorem onDetected_skip (h : st.running ≠ some sid) :
    onDetected st sid code conf = st := by
  unfold onDetected
  have : (st.running == some sid) = false := by
    simp only [beq_eq_false_iff_ne, ne_eq]
    exact h
  rw [this]
  simp

/-!
Part 5: claim theorems about the scanner.
-/

/-- C2: the detection filter accepts a result exactly when its confidence
is at least the threshold 70; a delivered detection with confidence 69
leaves the component state completely unchanged (nothing recorded), while
confidence 70 records the code and moves the scanner to the success
state. -/
theorem detection_filter_threshold :
    (∀ c : Int, acceptDetection c = true ↔ 70 ≤ c) ∧
    ∀ (st : ScannerS) (sid : Nat) (code : String),
      st.running = some sid → st.detectedRegistered = true →
      step st (Ev.detected sid code 69) = st ∧
      (step st (Ev.detected sid code 70)).scannedCode = code ∧
      (step st (Ev.detected sid code 70)).scannerState = ScState.success := by
  constructor
  · intro c
    simp only [acceptDetection, Bool.not_eq_eq_eq_not, Bool.not_true, decide_eq_false_iff_not,
      not_lt]
  · intro st sid code hr hreg
    obtain ⟨sst, sc, em, cnt, ql, cam, runn, pend, nsid, acq, dreg, preg, prs, rcam, pns, ncam, lg⟩ := st
    simp only at hr hreg
    subst hr hreg
    refine ⟨?_, ?_, ?_⟩
    · simp [step, onDetected, acceptDetection]
    · simp only [step]
      unfold onDetected
      simp only [beq_self_eq_true, Bool.and_self, if_true]
      rw [if_pos (by simp [acceptDetection])]
      unfold stopScanning
      cases ql <;> simp
    · simp only [step]
      unfold onDetected
      simp only [beq_self_eq_true, Bool.and_self, if_true]
      rw [if_pos (by simp [acceptDetection])]
      unfold stopScanning
      cases ql <;> simp

/-- Witness for the filter claim at a concrete reachable scanning state. -/
theorem detection_filter_threshold_witness :
    step (run readyState [Ev.startCall, Ev.initOk]) (Ev.detected 0 "X39" 69)
        = run readyState [Ev.startCall, Ev.initOk] ∧
    (step (run readyState [Ev.startCall, Ev.initOk]) (Ev.detected 0 "X39" 70)).scannedCode
        = "X39" :=
  ⟨(detection_filter_threshold.2 (run readyState [Ev.startCall, Ev.initOk]) 0 "X39"
      (by decide) (by decide)).1,
   (detection_filter_threshold.2 (run readyState [Ev.startCall, Ev.initOk]) 0 "X39"
      (by decide) (by decide)).2.1⟩

/-- C3: in every execution from the ready component, once a `stop()` has
torn down the running session `s`, a detection event of session `s`
delivered at any later point leaves the `ScannerState` and the recorded
code unchanged (the event is rejected: `offDetected` removed the handler
and a stopped pipeline cannot become current again, since session ids are
never reused). -/
theorem stale_detection_after_stop_rejected (evs1 evs2 : List Ev) (s : Nat)
    (code : String) (conf : Int)
    (hr : (run readyState evs1).running = some s) :
    (step (run (step (run readyState evs1) Ev.stopCall) evs2)
        (Ev.detected s code conf)).scannerState
      = (run (step (run readyState evs1) Ev.stopCall) evs2).scannerState ∧
    (step (run (step (run readyState evs1) Ev.stopCall) evs2)
        (Ev.detected s code conf)).scannedCode
      = (run (step (run readyState evs1) Ev.stopCall) evs2).scannedCode := by
  have hOk : SessionsOk (run readyState evs1) := sessionsOk_run sessionsOk_ready evs1
  have hg : SessionGone s (step (run readyState evs1) Ev.stopCall) :=
    sessionGone_of_stop hOk hr
  have hg2 := sessionGone_run hg evs2
  have hEq : step (run (step (run readyState evs1) Ev.stopCall) evs2)
      (Ev.detected s code conf) = run (step (run readyState evs1) Ev.stopCall) evs2 :=
    onDetected_skip hg2.1
  rw [hEq]
  exact ⟨rfl, rfl⟩

/-- Witness: a concrete execution (start, init success, stop) followed by a
stale high-confidence detection of the stopped session 0, which changes
nothing. -/
theorem stale_detection_after_stop_rejected_witness :
    (step (run (step (run readyState [Ev.startCall, Ev.initOk]) Ev.stopCall) [])
        (Ev.detected 0 "Z9" 99)).scannerState
      = (run (step (run readyState [Ev.startCall, Ev.initOk]) Ev.stopCall) []).scannerState ∧
    (step (run (step (run readyState [Ev.startCall, Ev.initOk]) Ev.stopCall) [])
        (Ev.detected 0 "Z9" 99)).scannedCode
      = (run (step (run readyState [Ev.startCall, Ev.initOk]) Ev.stopCall) []).scannedCode :=
  stale_detection_after_stop_rejected [Ev.startCall, Ev.initOk] [] 0 "Z9" 99 (by decide)

/-- C7: calling `handleCameraChange(id2)` while scanning on camera `id1`
with live session `s` performs exactly one teardown of session `s`, and
the UI thereafter shows `id2` selected — but the deferred restart runs the
closure that captured `id1`, so the operation appended after the stop is
`startSession id1`, not `startSession id2`: no session for the new camera
is ever started on this path. -/
theorem switch_camera_restarts_old_camera (st : ScannerS) (s : Nat) (id1 id2 : String)
    (hq : st.quaggaLoaded = true) (hsc : st.scannerState = ScState.scanning)
    (hr : st.running = some s) (hcam : st.selectedCamera = some id1) :
    (step (step st (Ev.cameraChange id2)) Ev.restartTimer).log
      = st.log ++ [Op.stopSession s, Op.startSession id1] ∧
    (step (step st (Ev.cameraChange id2)) Ev.restartTimer).selectedCamera = some id2 ∧
    ((step (step st (Ev.cameraChange id2)) Ev.restartTimer).log.drop st.log.length).count
        (Op.stopSession s) = 1 := by
  obtain ⟨sst, sc, em, cnt, ql, cam, runn, pend, nsid, acq, dreg, preg, prs, rcam, pns, ncam, lg⟩ := st
  simp only at hq hsc hr hcam
  subst hq hsc hr hcam
  refine ⟨?_, ?_, ?_⟩
  · simp [step, handleCameraChange, stopScanning, startScanningCam]
  · simp [step, handleCameraChange, stopScanning, startScanningCam]
  · simp [step, handleCameraChange, stopScanning, startScanningCam, List.drop_left,
      List.count_cons]

/-- Witness: switching to camera "cam2" in a concrete scanning state on
"cam1": the stop of session 0 is logged, the restart starts "cam1" again,
and the selection reads "cam2". -/
theorem switch_camera_restarts_old_camera_witness :
    (step (step (run readyState [Ev.startCall, Ev.initOk]) (Ev.cameraChange "cam2"))
        Ev.restartTimer).log
      = (run readyState [Ev.startCall, Ev.initOk]).log
          ++ [Op.stopSession 0, Op.startSession "cam1"] ∧
    (step (step (run readyState [Ev.startCall, Ev.initOk]) (Ev.cameraChange "cam2"))
        Ev.restartTimer).selectedCamera = some "cam2" :=
  ⟨(switch_camera_restarts_old_camera (run readyState [Ev.startCall, Ev.initOk]) 0
      "cam1" "cam2" (by decide) (by decide) (by decide) (by decide)).1,
   (switch_camera_restarts_old_camera (run readyState [Ev.startCall, Ev.initOk]) 0
      "cam1" "cam2" (by decide) (by decide) (by decide) (by decide)).2.1⟩

/-- A user-reachable event sequence: scan to success (which auto-stops),
press "new scan" (which goes idle and arms the 100 ms restart timer),
press start again while idle, let the init succeed, and then let the armed
timer fire `startScanning` while the scanner is already scanning. -/
def doubleStartTrace : List Ev :=
  [Ev.startCall, Ev.initOk, Ev.detected 0 "TEST39" 90, Ev.newScanClick,
   Ev.startCall, Ev.initOk, Ev.newScanTimer, Ev.initOk]

/-- C1: `startScanning` has no re-entrancy guard and does not stop a live
session first: on `doubleStartTrace` the component is scanning with one
acquired camera stream after six events, the seventh event issues
`startScanning` in that scanning state, and after its init resolves two
camera streams are acquired at once — a second decoder session is live. -/
theorem double_start_acquires_second_camera :
    (run readyState (doubleStartTrace.take 6)).scannerState = ScState.scanning ∧
    (run readyState (doubleStartTrace.take 6)).acquisitions = 1 ∧
    (run readyState doubleStartTrace).acquisitions = 2 := by
  refine ⟨?_, ?_, ?_⟩ <;> decide

/-- C8 counterexample: right after `startScanning` (before the init
callback) no session is live (`running = none`) and the scanner is
`starting`; calling `stopScanning` there changes the `ScannerState` to
idle, so `stop()` with no live session does not leave the state
unchanged. -/
theorem stop_in_starting_changes_state :
    (step readyState Ev.startCall).running = none ∧
    (step readyState Ev.startCall).scannerState = ScState.starting ∧
    (step (step readyState Ev.startCall) Ev.stopCall).scannerState = ScState.idle := by
  refine ⟨?_, ?_, ?_⟩ <;> decide

/-- C8 (amended): `stopScanning` is idempotent as a function and never
throws (the source catches all errors); when no session is live and the
scanner is neither mid-start nor mid-scan it leaves the `ScannerState`,
the recorded code, the error message, the camera acquisitions and the
session log unchanged (it only clears the frame counter and the handler
registrations); from `starting` or `scanning` it resets the state to
idle. -/
theorem stop_idempotent_and_safe :
    (∀ st : ScannerS, stopScanning (stopScanning st) = stopScanning st) ∧
    (∀ st : ScannerS, st.running = none → st.scannerState ≠ ScState.starting →
      st.scannerState ≠ ScState.scanning →
      (stopScanning st).scannerState = st.scannerState ∧
      (stopScanning st).scannedCode = st.scannedCode ∧
      (stopScanning st).errMsg = st.errMsg ∧
      (stopScanning st).acquisitions = st.acquisitions ∧
      (stopScanning st).log = st.log) ∧
    (∀ st : ScannerS, st.quaggaLoaded = true →
      (st.scannerState = ScState.starting ∨ st.scannerState = ScState.scanning) →
      (stopScanning st).scannerState = ScState.idle) := by
  refine ⟨?_, ?_, ?_⟩
  · intro st
    obtain ⟨sst, sc, em, cnt, ql, cam, runn, pend, nsid, acq, dreg, preg, prs, rcam, pns, ncam, lg⟩ := st
    cases ql <;> cases runn <;> cases sst <;> simp [stopScanning]
  · intro st h1 h2 h3
    obtain ⟨sst, sc, em, cnt, ql, cam, runn, pend, nsid, acq, dreg, preg, prs, rcam, pns, ncam, lg⟩ := st
    simp only at h1 h2 h3
    subst h1
    cases ql <;> cases sst <;> simp_all [stopScanning]
  · intro st h1 h2
    obtain ⟨sst, sc, em, cnt, ql, cam, runn, pend, nsid, acq, dreg, preg, prs, rcam, pns, ncam, lg⟩ := st
    simp only at h1 h2
    subst h1
    cases runn <;> cases sst <;> simp_all [stopScanning]

/-- Witness: the amended stop contract applied at the concrete ready
state. -/
theorem stop_idempotent_and_safe_witness :
    stopScanning (stopScanning readyState) = stopScanning readyState ∧
    (stopScanning readyState).scannerState = readyState.scannerState :=
  ⟨stop_idempotent_and_safe.1 readyState,
   (stop_idempotent_and_safe.2.1 readyState (by decide) (by decide) (by decide)).1⟩

/-!
Part 6: claim theorems about the product backend.
-/

theorem setStrField_id (p : Product) (f s : String) :
    (applyField.setStrField p f s).id = p.id := by
  unfold applyField.setStrField
  split_ifs <;> rfl

theorem setStrField_stock (p : Product) (f s : String) :
    (applyField.setStrField p f s).stock = p.stock := by
  unfold applyField.setStrField
  split_ifs <;> rfl

theorem setStrField_price (p : Product) (f s : String) :
    (applyField.setStrField p f s).price = p.price := by
  unfold applyField.setStrField
  split_ifs <;> rfl

theorem applyField_id {p : Product} {u : Bool} {f : String} {v : Option JsVal} :
    (applyField p u f v).1.id = p.id := by
  unfold applyField
  split
  · rfl
  · split
    · split
      · split <;> rfl
      · rfl
    · split
      · split
        · exact setStrField_id p f _
        · rfl
      · rfl

theorem applyField_stock {p : Product} {u : Bool} {f : String} {v : Option JsVal} :
    (applyField p u f v).1.stock = p.stock := by
  unfold applyField
  split
  · rfl
  · split
    · split
      · split <;> rfl
      · rfl
    · split
      · split
        · exact setStrField_stock p f _
        · rfl
      · rfl

theorem applyField_price_of_ne (f : String) (hf : f ≠ "price") {p : Product} {u : Bool}
    {v : Option JsVal} : (applyField p u f v).1.price = p.price := by
  unfold applyField
  split
  · rfl
  · rw [if_neg hf]
    split
    · split
      · exact setStrField_price p f _
      · rfl
    · rfl

theorem applyField_price_spec (p : Product) (u : Bool) (v : Option JsVal) :
    (applyField p u "price" v).1.price = p.price ∨
      ∃ w q, v = some w ∧ toNumber w = some q ∧ 0 ≤ q ∧
        (applyField p u "price" v).1.price = q := by
  unfold applyField
  cases v with
  | none => exact Or.inl rfl
  | some w =>
    dsimp only
    rw [if_pos rfl]
    cases htn : toNumber w with
    | none => exact Or.inl rfl
    | some q =>
      dsimp only
      by_cases hq : 0 ≤ q
      · rw [if_pos hq]
        exact Or.inr ⟨w, q, rfl, htn, hq, rfl⟩
      · rw [if_neg hq]
        exact Or.inl rfl

theorem updateInfo_id (p : Product) (b : Body) : (updateInfo p b).1.id = p.id := by
  unfold updateInfo
  simp only [applyField_id]

theorem updateInfo_stock (p : Product) (b : Body) : (updateInfo p b).1.stock = p.stock := by
  unfold updateInfo
  simp only [applyField_stock]

theorem updateInfo_price_spec (p : Product) (b : Body) :
    (updateInfo p b).1.price = p.price ∨
      ∃ w q, b.price = some w ∧ toNumber w = some q ∧ 0 ≤ q ∧
        (updateInfo p b).1.price = q := by
  have E : ∀ (pp : Product) (uu : Bool),
      (applyField (applyField (applyField pp uu "category" b.category).1
          (applyField pp uu "category" b.category).2 "description" b.description).1
        (applyField (applyField pp uu "category" b.category).1
          (applyField pp uu "category" b.category).2 "description" b.description).2
        "manufacturer" b.manufacturer).1.price = pp.price := by
    intro pp uu
    rw [applyField_price_of_ne "manufacturer" (by decide),
        applyField_price_of_ne "description" (by decide),
        applyField_price_of_ne "category" (by decide)]
  have e1 : (applyField p false "name" b.name).1.price = p.price :=
    applyField_price_of_ne "name" (by decide)
  rcases applyField_price_spec (applyField p false "name" b.name).1
      (applyField p false "name" b.name).2 b.price with h | ⟨w, q, hw, htn, hq0, he⟩
  · left
    unfold updateInfo
    rw [E, h, e1]
  · right
    refine ⟨w, q, hw, htn, hq0, ?_⟩
    unfold updateInfo
    rw [E, he]

/-- C10: a `POST` with action `update_info` never changes the product's
`id` or `stock`, and changes `price` only when the supplied value converts
to a nonnegative number (in which case the new price is that number); the
other writable fields are `name`, `category`, `description`,
`manufacturer`. -/
theorem update_info_preserves_id_stock (store : ProductStore) (b : String) (body : Body)
    (p : Product) (ha : body.action = "update_info") (hs : store b = some p) :
    ∃ p', (productAction store b body).2 b = some p' ∧ p'.id = p.id ∧ p'.stock = p.stock ∧
      (p'.price ≠ p.price →
        ∃ w q, body.price = some w ∧ toNumber w = some q ∧ 0 ≤ q ∧ p'.price = q) := by
  unfold productAction
  rw [hs]
  dsimp only
  rw [ha, if_neg (by decide), if_neg (by decide), if_pos rfl]
  by_cases hu : (updateInfo p body).2 = true
  · rw [if_pos hu]
    refine ⟨(updateInfo p body).1, ?_, updateInfo_id p body, updateInfo_stock p body, ?_⟩
    · show updateStore store b (updateInfo p body).1 b = some _
      unfold updateStore
      rw [if_pos rfl]
    · intro hne
      rcases updateInfo_price_spec p body with h | ⟨w, q, hw, htn, hq0, he⟩
      · exact absurd h hne
      · exact ⟨w, q, hw, htn, hq0, he⟩
  · rw [if_neg hu]
    exact ⟨p, hs, rfl, rfl, fun hne => absurd rfl hne⟩

/-- An `update_info` body renaming the product and setting its price. -/
def updateInfoBodyW : Body :=
  { action := "update_info", name := some (JsVal.str " New "),
    price := some (JsVal.num 99) }

/-- Witness: an `update_info` request on the concrete store that renames
product `123456789` and sets its price to 99 leaves id and stock alone. -/
theorem update_info_preserves_id_stock_witness :
    ∃ p', (productAction products0 "123456789" updateInfoBodyW).2 "123456789" = some p' ∧
      p'.id = productA.id ∧ p'.stock = productA.stock ∧
      (p'.price ≠ productA.price →
        ∃ w q, updateInfoBodyW.price = some w ∧
          toNumber w = some q ∧ 0 ≤ q ∧ p'.price = q) :=
  update_info_preserves_id_stock products0 "123456789" updateInfoBodyW productA rfl
    (by decide)

/-- C4: a `decrease_stock` request whose numeric quantity strictly exceeds
the current stock is answered with status 400, `success:false` and the
insufficient-stock error, and the store is left completely unchanged. -/
theorem decrease_stock_insufficient_400 (store : ProductStore) (b : String) (p : Product)
    (q : ℚ) (body : Body) (hs : store b = some p) (ha : body.action = "decrease_stock")
    (hq : body.quantity = some (JsVal.num q)) (hgt : p.stock < q) :
    (productAction store b body).1.status = 400 ∧
    (productAction store b body).1.success = false ∧
    (productAction store b body).1.error = some "재고가 부족합니다." ∧
    (productAction store b body).2 = store := by
  unfold productAction
  rw [hs]
  dsimp only
  rw [ha, if_pos rfl, hq]
  dsimp only
  rw [if_neg (not_le.mpr hgt)]
  exact ⟨rfl, rfl, rfl, rfl⟩

/-- A `decrease_stock` body asking for 60 items. -/
def decreaseBody60 : Body :=
  { action := "decrease_stock", quantity := some (JsVal.num 60) }

/-- Witness: asking to remove 60 items from product `123456789` (stock 50)
is rejected with a 400 and the store is unchanged. -/
theorem decrease_stock_insufficient_400_witness :
    (productAction products0 "123456789" decreaseBody60).1.status = 400 ∧
    (productAction products0 "123456789" decreaseBody60).1.success = false ∧
    (productAction products0 "123456789" decreaseBody60).1.error
      = some "재고가 부족합니다." ∧
    (productAction products0 "123456789" decreaseBody60).2 = products0 :=
  decrease_stock_insufficient_400 products0 "123456789" productA 60 decreaseBody60
    (by decide) rfl rfl (by decide)

/-- The three-product initial store has only nonnegative stocks. -/
theorem products0_stock_nonneg : ∀ k p, products0 k = some p → 0 ≤ p.stock := by
  intro k p h
  unfold products0 at h
  split_ifs at h
  · obtain rfl := Option.some.inj h; decide
  · obtain rfl := Option.some.inj h; decide
  · obtain rfl := Option.some.inj h; decide

/-- One POST preserves nonnegativity of every stock, provided the request's
quantity — when it is a number at all — is nonnegative. -/
theorem productAction_stock_nonneg (store : ProductStore) (b : String) (body : Body)
    (hq : qtyNonneg body = true) (h0 : ∀ k p, store k = some p → 0 ≤ p.stock) :
    ∀ k p, (productAction store b body).2 k = some p → 0 ≤ p.stock := by
  intro k p hk
  unfold productAction at hk
  cases hsb : store b with
  | none =>
    rw [hsb] at hk
    dsimp only at hk
    exact h0 k p hk
  | some prod =>
    rw [hsb] at hk
    dsimp only at hk
    by_cases ha1 : body.action = "decrease_stock"
    · rw [if_pos ha1] at hk
      cases hbq : body.quantity with
      | none =>
        rw [hbq] at hk
        dsimp only at hk
        exact h0 k p hk
      | some w =>
        cases w with
        | str s =>
          rw [hbq] at hk
          dsimp only at hk
          exact h0 k p hk
        | other =>
          rw [hbq] at hk
          dsimp only at hk
          exact h0 k p hk
        | num q =>
          rw [hbq] at hk
          dsimp only at hk
          by_cases hle : q ≤ prod.stock
          · rw [if_pos hle] at hk
            unfold updateStore at hk
            dsimp only at hk
            by_cases hkb : k = b
            · rw [if_pos hkb] at hk
              obtain rfl := Option.some.inj hk
              show (0 : ℚ) ≤ prod.stock - q
              exact sub_nonneg.mpr hle
            · rw [if_neg hkb] at hk
              exact h0 k p hk
          · rw [if_neg hle] at hk
            exact h0 k p hk
    · rw [if_neg ha1] at hk
      by_cases ha2 : body.action = "increase_stock"
      · rw [if_pos ha2] at hk
        cases hbq : body.quantity with
        | none =>
          rw [hbq] at hk
          dsimp only at hk
          exact h0 k p hk
        | some w =>
          cases w with
          | str s =>
            rw [hbq] at hk
            dsimp only at hk
            exact h0 k p hk
          | other =>
            rw [hbq] at hk
            dsimp only at hk
            exact h0 k p hk
          | num q =>
            rw [hbq] at hk
            dsimp only at hk
            have hq' : (0 : ℚ) ≤ q := by
              unfold qtyNonneg at hq
              rw [hbq] at hq
              exact of_decide_eq_true hq
            unfold updateStore at hk
            by_cases hkb : k = b
            · rw [if_pos hkb] at hk
              obtain rfl := Option.some.inj hk
              show (0 : ℚ) ≤ prod.stock + q
              exact add_nonneg (h0 b prod hsb) hq'
            · rw [if_neg hkb] at hk
              exact h0 k p hk
      · rw [if_neg ha2] at hk
        by_cases ha3 : body.action = "update_info"
        · rw [if_pos ha3] at hk
          by_cases hu : (updateInfo prod body).2 = true
          · rw [if_pos hu] at hk
            unfold updateStore at hk
            dsimp only at hk
            by_cases hkb : k = b
            · rw [if_pos hkb] at hk
              obtain rfl := Option.some.inj hk
              rw [updateInfo_stock]
              exact h0 b prod hsb
            · rw [if_neg hkb] at hk
              exact h0 k p hk
          · rw [if_neg hu] at hk
            exact h0 k p hk
        · rw [if_neg ha3] at hk
          exact h0 k p hk

/-- C9 (amended): across any request sequence in which every numeric
quantity is nonnegative, every product's stock stays nonnegative (the
`decrease_stock` guard protects the lower bound, and `update_info` does
not touch stock). -/
theorem stock_nonneg_for_nonneg_quantities (reqs : List (String × Body))
    (store : ProductStore) (hall : reqs.all (fun r => qtyNonneg r.2) = true)
    (h0 : ∀ k p, store k = some p → 0 ≤ p.stock) :
    ∀ k p, applyAll reqs store k = some p → 0 ≤ p.stock := by
  induction reqs generalizing store with
  | nil => exact h0
  | cons r t ih =>
    simp only [List.all_cons, Bool.and_eq_true] at hall
    exact ih _ hall.2 (productAction_stock_nonneg store r.1 r.2 hall.1 h0)

/-- An `increase_stock` body with a negative numeric quantity. -/
def increaseBodyNeg : Body :=
  { action := "increase_stock", quantity := some (JsVal.num (-51)) }

/-- C9 counterexample: `increase_stock` accepts any number, so a quantity
of −51 on product `123456789` (stock 50) drives its stock to −1, below
zero. -/
theorem negative_increase_makes_stock_negative :
    ((productAction products0 "123456789" increaseBodyNeg).2 "123456789").map Product.stock
      = some (-1) ∧ ((-1 : ℚ) < 0) := by
  constructor
  · have h1 : products0 "123456789" = some productA := by decide
    unfold productAction
    rw [h1]
    dsimp only
    rw [if_neg (by decide), if_pos (by decide)]
    have h2 : increaseBodyNeg.quantity = some (JsVal.num (-51)) := rfl
    rw [h2]
    dsimp only
    unfold updateStore
    rw [if_pos rfl]
    show some (productA.stock + (-51)) = some (-1)
    simp only [productA, Option.some.injEq]
    norm_num
  · norm_num

/-- Witness: the amended nonnegativity invariant on a concrete request
sequence (an over-decrease of 60 is rejected, so product `123456789`
still has its stock of 50 ≥ 0). -/
theorem stock_nonneg_for_nonneg_quantities_witness :
    (0 : ℚ) ≤ productA.stock :=
  stock_nonneg_for_nonneg_quantities [("123456789", decreaseBody60)]
    products0 (by decide) products0_stock_nonneg "123456789" productA (by decide)

/-- C5 counterexample: the empty barcode is not a key of the store, yet the
loader answers it with status 400 (missing barcode), not 404. -/
theorem blank_barcode_returns_400_not_404 :
    products0 "" = none ∧ (loader products0 "" "t0").status = 400 ∧
      (loader products0 "" "t0").status ≠ 404 := by
  refine ⟨?_, ?_, ?_⟩ <;> decide

/-- C5 (amended): for a blank (trim-empty) barcode the loader answers 400
with `success:false`; for a non-blank barcode it answers 404 with
`success:false` when the barcode is not a key, and 200 with `success:true`
and the product record (with `scannedAt` and the formatted price) in
`data` when it is. -/
theorem loader_lookup_contract (store : ProductStore) (b now : String) :
    (strTrim b = "" →
      (loader store b now).status = 400 ∧ (loader store b now).success = false) ∧
    (strTrim b ≠ "" →
      (store b = none →
        (loader store b now).status = 404 ∧ (loader store b now).success = false) ∧
      (∀ p, store b = some p →
        (loader store b now).status = 200 ∧ (loader store b now).success = true ∧
        (loader store b now).data = some ⟨p, now, formatPrice p.price⟩)) := by
  constructor
  · intro h
    unfold loader
    rw [if_pos h]
    exact ⟨rfl, rfl⟩
  · intro h
    constructor
    · intro hn
      unfold loader
      rw [if_neg h, hn]
      exact ⟨rfl, rfl⟩
    · intro p hp
      unfold loader
      rw [if_neg h, hp]
      exact ⟨rfl, rfl, rfl⟩

/-- Witness: the two scenario lookups from the claim — `123456789` found
with stock 50, `unknown` answered 404. -/
theorem loader_lookup_contract_witness :
    (loader products0 "123456789" "t0").success = true ∧
    (loader products0 "123456789" "t0").data
      = some ⟨productA, "t0", formatPrice productA.price⟩ ∧
    (loader products0 "unknown" "t0").status = 404 ∧
    (loader products0 "unknown" "t0").success = false :=
  ⟨(((loader_lookup_contract products0 "123456789" "t0").2 (by decide)).2 productA
      (by decide)).2.1,
   (((loader_lookup_contract products0 "123456789" "t0").2 (by decide)).2 productA
      (by decide)).2.2,
   (((loader_lookup_contract products0 "unknown" "t0").2 (by decide)).1 (by decide)).1,
   (((loader_lookup_contract products0 "unknown" "t0").2 (by decide)).1 (by decide)).2⟩

/-- C6 counterexample: on the list `[{a, Front}, {b, Rear Camera}]` the
`part_000` variant selects `"a"` (it only looks for "back"), while the
claimed policy — first label containing back/rear/environment — selects
`"b"`. -/
theorem part000_misses_rear_label :
    selectDefaultPart000 [⟨"a", "Front"⟩, ⟨"b", "Rear Camera"⟩] = some "a" ∧
    selectDefaultSpec [⟨"a", "Front"⟩, ⟨"b", "Rear Camera"⟩] = some "b" ∧
    selectDefaultPart000 [⟨"a", "Front"⟩, ⟨"b", "Rear Camera"⟩]
      ≠ selectDefaultSpec [⟨"a", "Front"⟩, ⟨"b", "Rear Camera"⟩] := by
  refine ⟨?_, ?_, ?_⟩ <;> decide

/-- C6 (amended): the main `home.tsx` variant implements exactly the
claimed policy (first back/rear/environment label, else the first device,
nothing on an empty list); the `part_000` variant implements the back-only
policy.  On the claim's scenario `[{a, Front}, {b, Back Camera}]` both
select `"b"`, and both select nothing on an empty list without error. -/
theorem default_camera_selection_policy :
    (∀ l, selectDefaultHome l = selectDefaultSpec l) ∧
    (∀ l, selectDefaultPart000 l = selectBackOnlySpec l) ∧
    selectDefaultHome [⟨"a", "Front"⟩, ⟨"b", "Back Camera"⟩] = some "b" ∧
    selectDefaultPart000 [⟨"a", "Front"⟩, ⟨"b", "Back Camera"⟩] = some "b" ∧
    selectDefaultHome [] = none ∧ selectDefaultPart000 [] = none := by
  refine ⟨?_, ?_, by decide, by decide, by decide, by decide⟩
  · intro l
    unfold selectDefaultHome selectDefaultSpec
    cases h : l.find? labelPrefers <;> cases l <;> simp
  · intro l
    unfold selectDefaultPart000 selectBackOnlySpec
    cases l with
    | nil => simp
    | cons c t =>
      cases h : (c :: t).find? (fun d => strIncludes (strLower d.label) "back") <;> simp [h]
